import Mathlib

/-!
# Verification of the airdump capture/fingerprint/store core

Shallow embedding of the parts of the `airdump` repository that the frozen
claims are about:

* `src/fingerprinting/wifi_fingerprint.py` — capability extraction and the
  canonical-JSON/SHA-256 Wi-Fi fingerprint;
* `src/scanners/kismet_controller.py` — the upstream device poller
  (`_api_request` / `get_devices` / `_parse_device` / `_poll_devices`);
* `src/scanners/gps_logger.py` — the GPS position service
  (`_update_position` / `get_current_position`);
* `src/core/database.py` — the SQLite store (device upserts, signature
  upsert, session lifecycle, session statistics, spatial query, and the
  failed-write buffer drain `import_buffered_records`).

Machine integers do not occur (Python ints are unbounded); SQL REAL columns
holding GPS coordinates are modelled as `Rat`, ISO-formatted datetimes as
opaque `String`s, and nullable SQL columns / Python `Optional` fields as
`Option`.  SQLite rows are list elements; `id INTEGER PRIMARY KEY
AUTOINCREMENT` makes ids unique, so `UPDATE ... WHERE id = <id of the row
fetched by fetchone>` is modelled as updating the first matching row of the
list (`updateAt`).
-/

namespace Airdump

/-! ## Generic helpers -/

/-- `COALESCE(incoming, existing)`: the incoming value when it is non-NULL,
otherwise the existing one. -/
def coalesce {α : Type} (incoming existing : Option α) : Option α :=
  match incoming with
  | some v => some v
  | none => existing

/-- Update the first element satisfying `p` (SQLite `fetchone` on the scan
followed by `UPDATE ... WHERE id = ?` with the fetched primary key). -/
def updateAt {α : Type} (p : α → Bool) (f : α → α) : List α → List α
  | [] => []
  | r :: rs => if p r then f r :: rs else r :: updateAt p f rs

/-! ## 32-bit word arithmetic and SHA-256 (`hashlib.sha256`)

Words are `Nat` reduced mod `2 ^ 32` wherever overflow matters. -/

def w32 : Nat := 4294967296

def add32 (a b : Nat) : Nat := (a + b) % w32

def rotr32 (n x : Nat) : Nat := ((x >>> n) ||| (x <<< (32 - n))) % w32

def shaCh (x y z : Nat) : Nat := (x &&& y) ^^^ ((x ^^^ 4294967295) &&& z)

def shaMaj (x y z : Nat) : Nat := (x &&& y) ^^^ (x &&& z) ^^^ (y &&& z)

def bigSigma0 (x : Nat) : Nat := rotr32 2 x ^^^ rotr32 13 x ^^^ rotr32 22 x

def bigSigma1 (x : Nat) : Nat := rotr32 6 x ^^^ rotr32 11 x ^^^ rotr32 25 x

def smallSigma0 (x : Nat) : Nat := rotr32 7 x ^^^ rotr32 18 x ^^^ (x >>> 3)

def smallSigma1 (x : Nat) : Nat := rotr32 17 x ^^^ rotr32 19 x ^^^ (x >>> 10)

/-- The 64 SHA-256 round constants (FIPS 180-4, in decimal). -/
def shaK : List Nat :=
  [1116352408, 1899447441, 3049323471, 3921009573,
   961987163, 1508970993, 2453635748, 2870763221,
   3624381080, 310598401, 607225278, 1426881987,
   1925078388, 2162078206, 2614888103, 3248222580,
   3835390401, 4022224774, 264347078, 604807628,
   770255983, 1249150122, 1555081692, 1996064986,
   2554220882, 2821834349, 2952996808, 3210313671,
   3336571891, 3584528711, 113926993, 338241895,
   666307205, 773529912, 1294757372, 1396182291,
   1695183700, 1986661051, 2177026350, 2456956037,
   2730485921, 2820302411, 3259730800, 3345764771,
   3516065817, 3600352804, 4094571909, 275423344,
   430227734, 506948616, 659060556, 883997877,
   958139571, 1322822218, 1537002063, 1747873779,
   1955562222, 2024104815, 2227730452, 2361852424,
   2428436474, 2756734187, 3204031479, 3329325298]

/-- Working state / hash value: eight 32-bit words. -/
structure Hash8 where
  a : Nat
  b : Nat
  c : Nat
  d : Nat
  e : Nat
  f : Nat
  g : Nat
  h : Nat
deriving Repr, DecidableEq

/-- SHA-256 initial hash value (FIPS 180-4, in decimal). -/
def shaH0 : Hash8 :=
  ⟨1779033703, 3144134277, 1013904242, 2773480762,
   1359893119, 2600822924, 528734635, 1541459225⟩

/-- `k` bytes of `n`, big-endian. -/
def beBytes : Nat → Nat → List Nat
  | 0, _ => []
  | k + 1, n => beBytes k (n >>> 8) ++ [n % 256]

/-- SHA-256 padding: append `0x80`, zeros to 56 mod 64, then the bit length
as 8 big-endian bytes. -/
def sha256pad (msg : List Nat) : List Nat :=
  let len := msg.length
  let zeros := (119 - len % 64) % 64
  msg ++ [128] ++ List.replicate zeros 0 ++ beBytes 8 (len * 8)

/-- Split into chunks of `n` (fuel-driven). -/
def chunksAux {α : Type} : Nat → Nat → List α → List (List α)
  | 0, _, _ => []
  | _, _, [] => []
  | fuel + 1, n, l => l.take n :: chunksAux fuel n (l.drop n)

def chunks64 (l : List Nat) : List (List Nat) := chunksAux l.length 64 l

/-- Big-endian 32-bit words from bytes. -/
def bytesToWords : List Nat → List Nat
  | a :: b :: c :: d :: rest => (((a * 256 + b) * 256 + c) * 256 + d) :: bytesToWords rest
  | _ => []

/-- One message-schedule extension step. -/
def scheduleStep (w : List Nat) : List Nat :=
  let t := w.length
  w ++ [add32 (add32 (smallSigma1 (w.getD (t - 2) 0)) (w.getD (t - 7) 0))
              (add32 (smallSigma0 (w.getD (t - 15) 0)) (w.getD (t - 16) 0))]

/-- Extend 16 schedule words to 64. -/
def extendSchedule (w : List Nat) : List Nat :=
  (List.range 48).foldl (fun acc _ => scheduleStep acc) w

/-- One SHA-256 round; `kw` is the round constant already added to the
schedule word. -/
def shaRound (s : Hash8) (kw : Nat) : Hash8 :=
  let t1 := add32 s.h (add32 (bigSigma1 s.e) (add32 (shaCh s.e s.f s.g) kw))
  let t2 := add32 (bigSigma0 s.a) (shaMaj s.a s.b s.c)
  ⟨add32 t1 t2, s.a, s.b, s.c, add32 s.d t1, s.e, s.f, s.g⟩

/-- Compress one 64-byte block into the running hash. -/
def compressBlock (h : Hash8) (block : List Nat) : Hash8 :=
  let w := extendSchedule (bytesToWords block)
  let kw := List.zipWith add32 shaK w
  let s := kw.foldl shaRound h
  ⟨add32 h.a s.a, add32 h.b s.b, add32 h.c s.c, add32 h.d s.d,
   add32 h.e s.e, add32 h.f s.f, add32 h.g s.g, add32 h.h s.h⟩

/-- The 32 output bytes of a hash value. -/
def hashBytes (h : Hash8) : List Nat :=
  beBytes 4 h.a ++ beBytes 4 h.b ++ beBytes 4 h.c ++ beBytes 4 h.d ++
  beBytes 4 h.e ++ beBytes 4 h.f ++ beBytes 4 h.g ++ beBytes 4 h.h

/-- SHA-256 of a byte sequence. -/
def sha256 (msg : List Nat) : List Nat :=
  hashBytes ((chunks64 (sha256pad msg)).foldl compressBlock shaH0)

/-- The sixteen lowercase hexadecimal digits. -/
def hexDigits : List Char := "0123456789abcdef".data

def hexNibble (n : Nat) : Char := hexDigits.getD (n % 16) 'f'

/-- Two lowercase hex digits of a byte. -/
def byteHex (b : Nat) : List Char := [hexNibble (b / 16), hexNibble b]

/-- `hashlib.sha256(...).hexdigest()`: 64 lowercase hex characters. -/
def sha256hex (msg : List Nat) : String :=
  ⟨(sha256 msg).foldr (fun b acc => byteHex b ++ acc) []⟩

/-- UTF-8 encoding of one character. -/
def utf8Char (c : Char) : List Nat :=
  let n := c.toNat
  if n < 128 then [n]
  else if n < 2048 then [192 ||| (n >>> 6), 128 ||| (n &&& 63)]
  else if n < 65536 then
    [224 ||| (n >>> 12), 128 ||| ((n >>> 6) &&& 63), 128 ||| (n &&& 63)]
  else
    [240 ||| (n >>> 18), 128 ||| ((n >>> 12) &&& 63),
     128 ||| ((n >>> 6) &&& 63), 128 ||| (n &&& 63)]

/-- UTF-8 bytes of a string (`str.encode()`). -/
def utf8 (s : String) : List Nat :=
  s.data.foldr (fun c acc => utf8Char c ++ acc) []

/-! ## Python string ordering and `sorted` over lists and sets -/

/-- Python string `<`: lexicographic on code points. -/
def charListLt : List Char → List Char → Bool
  | [], [] => false
  | [], _ :: _ => true
  | _ :: _, [] => false
  | a :: as, b :: bs =>
    if a.toNat < b.toNat then true
    else if b.toNat < a.toNat then false
    else charListLt as bs

def strLt (a b : String) : Bool := charListLt a.data b.data

/-- Insert into a sorted duplicate-free list of strings. -/
def insertStr (x : String) : List String → List String
  | [] => [x]
  | y :: ys => if x = y then y :: ys else if strLt x y then x :: y :: ys else y :: insertStr x ys

/-- Python `sorted(set(l))` for strings: the sorted duplicate-free list of
the elements of `l`. -/
def sortDedup (l : List String) : List String := l.foldr insertStr []

/-- Insertion into a sorted list of integers. -/
def insertInt (x : Int) : List Int → List Int
  | [] => [x]
  | y :: ys => if x ≤ y then x :: y :: ys else y :: insertInt x ys

/-- Python `sorted(l)` for integers (ascending). -/
def sortInts (l : List Int) : List Int := l.foldr insertInt []

/-! ## `json.dumps(..., sort_keys=True)` for the fingerprint feature dict

CPython with the default arguments (`ensure_ascii=True`, separators
`", "` and `": "`): booleans render as `true` / `false`, ints in decimal,
and strings with `"` / `\` / control characters / non-ASCII escaped. -/

def lbrace : String := "\x7b"

def rbrace : String := "\x7d"

/-- Four lowercase hex digits (for `\uXXXX` escapes). -/
def hex4 (n : Nat) : List Char :=
  [hexNibble (n / 4096), hexNibble (n / 256), hexNibble (n / 16), hexNibble n]

/-- CPython `ensure_ascii` escaping of one character. -/
def jsonEscapeChar (c : Char) : List Char :=
  if c = '"' then ['\\', '"']
  else if c = '\\' then ['\\', '\\']
  else if c = '\n' then ['\\', 'n']
  else if c = '\t' then ['\\', 't']
  else if c = '\r' then ['\\', 'r']
  else if c = Char.ofNat 8 then ['\\', 'b']
  else if c = Char.ofNat 12 then ['\\', 'f']
  else if c.toNat < 32 ∨ c.toNat > 126 then
    if c.toNat < 65536 then '\\' :: 'u' :: hex4 c.toNat
    else
      let n := c.toNat - 65536
      '\\' :: 'u' :: hex4 (55296 + n / 1024) ++ '\\' :: 'u' :: hex4 (56320 + n % 1024)
  else [c]

/-- A JSON string literal. -/
def jsonStr (s : String) : String :=
  "\"" ++ String.mk (s.data.foldr (fun c acc => jsonEscapeChar c ++ acc) []) ++ "\""

def jsonBool (b : Bool) : String := if b then "true" else "false"

def jsonNat (n : Nat) : String := toString n

def jsonInt (i : Int) : String := toString i

/-- Join with a separator (`", ".join`). -/
def joinSep (sep : String) : List String → String
  | [] => ""
  | [x] => x
  | x :: xs => x ++ sep ++ joinSep sep xs

/-- A JSON array with the default item separator. -/
def jsonList (elems : List String) : String := "[" ++ joinSep ", " elems ++ "]"

/-! ## Wi-Fi fingerprinting (`src/fingerprinting/wifi_fingerprint.py`) -/

/-- One vendor IE dict as the fingerprinter reads it: `ie.get("oui", "")`
and `ie.get("type")` (no default, so absent means `none`). -/
structure VendorIE where
  oui : String
  typ : Option String
deriving Repr, DecidableEq

/-- The fields of the `WiFiCapabilities` dataclass that take part in
capability extraction and the fingerprint (the remaining dataclass fields
are never written by `extract_capabilities` and never read by
`compute_fingerprint`). -/
structure WiFiCapabilities where
  supported_rates : List Int := []
  extended_rates : List Int := []
  ht_supported : Bool := false
  ht_capabilities : Nat := 0
  vht_supported : Bool := false
  vht_capabilities : Nat := 0
  he_supported : Bool := false
  vendor_ies : List VendorIE := []
  wps_enabled : Bool := false
deriving Repr, DecidableEq

def hexDigitVal (c : Char) : Option Nat :=
  if '0' ≤ c ∧ c ≤ '9' then some (c.toNat - 48)
  else if 'a' ≤ c ∧ c ≤ 'f' then some (c.toNat - 87)
  else if 'A' ≤ c ∧ c ≤ 'F' then some (c.toNat - 55)
  else none

def hexParseAux : List Char → Nat → Option Nat
  | [], acc => some acc
  | c :: cs, acc =>
    match hexDigitVal c with
    | some v => hexParseAux cs (acc * 16 + v)
    | none => none

/-- Python `int(s, 16)` on a bare hex-digit string (the only shape the
fingerprinter receives); `none` when the conversion raises `ValueError`. -/
def hexParse (s : String) : Option Nat :=
  match s.data with
  | [] => none
  | l => hexParseAux l 0

/-- The `if ht_capabilities: caps.ht_supported = True; try: caps.ht_capabilities
= int(ht_capabilities, 16) except: pass` block of `extract_capabilities`
(`None` and `""` are falsy; a failed conversion leaves the value at 0). -/
def parseCapField : Option String → Bool × Nat
  | none => (false, 0)
  | some s => if s = "" then (false, 0) else (true, (hexParse s).getD 0)

/-- `WiFiFingerprinter.extract_capabilities`.  `wps_enabled` is set by the
vendor-IE loop: it ends up true exactly when some IE has
`ie.get("oui", "") == "00:50:f2"` and `ie.get("type") == "4"`
(the comparison in the source is case-sensitive against the lowercase
string). -/
def extract_capabilities (supported_rates extended_rates : Option (List Int))
    (ht_capabilities vht_capabilities : Option String)
    (vendor_ies : Option (List VendorIE)) : WiFiCapabilities :=
  let ies := vendor_ies.getD []
  let htP := parseCapField ht_capabilities
  let vhtP := parseCapField vht_capabilities
  { supported_rates := supported_rates.getD []
    extended_rates := extended_rates.getD []
    ht_supported := htP.1
    ht_capabilities := htP.2
    vht_supported := vhtP.1
    vht_capabilities := vhtP.2
    he_supported := false
    vendor_ies := ies
    wps_enabled := ies.any fun ie => ie.oui == "00:50:f2" && ie.typ == some "4" }

/-- The canonical feature vector built inside `compute_fingerprint`: the
`features` dict with its arrays already sorted.  `probe_ssids` is `none`
when the argument was `None` or the empty list (falsy), matching
`if probe_ssids:`. -/
structure FeatureVec where
  he : Bool
  ht : Bool
  ht_caps : Nat
  probe_ssids : Option (List String)
  rates : List Int
  vendor_ouis : List String
  vht : Bool
  vht_caps : Nat
  wps : Bool
deriving Repr, DecidableEq

/-- The `features` dict of `compute_fingerprint`:
`rates = sorted(supported + extended)`, the scalar capability fields, the
sorted set of non-empty vendor OUIs, and (only when the argument list is
non-empty) the sorted set of non-empty probed SSIDs. -/
def featureVec (c : WiFiCapabilities) (probe_ssids : Option (List String)) : FeatureVec :=
  { rates := sortInts (c.supported_rates ++ c.extended_rates)
    ht := c.ht_supported
    ht_caps := c.ht_capabilities
    vht := c.vht_supported
    vht_caps := c.vht_capabilities
    he := c.he_supported
    wps := c.wps_enabled
    vendor_ouis := sortDedup ((c.vendor_ies.map (·.oui)).filter (· ≠ ""))
    probe_ssids :=
      match probe_ssids with
      | none => none
      | some [] => none
      | some l => some (sortDedup (l.filter (· ≠ ""))) }

/-- `json.dumps(features, sort_keys=True)`.  The key set is fixed, so the
lexicographically sorted key order is `he, ht, ht_caps, (probe_ssids),
rates, vendor_ouis, vht, vht_caps, wps`. -/
def serializeFeatures (f : FeatureVec) : String :=
  lbrace ++
    joinSep ", "
      (["\"he\": " ++ jsonBool f.he,
        "\"ht\": " ++ jsonBool f.ht,
        "\"ht_caps\": " ++ jsonNat f.ht_caps] ++
       (match f.probe_ssids with
        | none => []
        | some l => ["\"probe_ssids\": " ++ jsonList (l.map jsonStr)]) ++
       ["\"rates\": " ++ jsonList (f.rates.map jsonInt),
        "\"vendor_ouis\": " ++ jsonList (f.vendor_ouis.map jsonStr),
        "\"vht\": " ++ jsonBool f.vht,
        "\"vht_caps\": " ++ jsonNat f.vht_caps,
        "\"wps\": " ++ jsonBool f.wps]) ++
  rbrace

/-- `WiFiFingerprinter.compute_fingerprint`: SHA-256 hex digest of the
UTF-8 canonical JSON of the feature vector. -/
def compute_fingerprint (c : WiFiCapabilities) (probe_ssids : Option (List String)) : String :=
  sha256hex (utf8 (serializeFeatures (featureVec c probe_ssids)))

/-- The fields of `ProbeProfile` that `fingerprint_from_probe` uses.
`probed_ssids` is a Python set, modelled as a duplicate-free list. -/
structure ProbeProfile where
  mac : String
  probed_ssids : List String := []
  probe_count : Nat := 0
  capabilities : Option WiFiCapabilities := none
deriving Repr, DecidableEq

/-- `ProbeProfile.add_probe`: a non-empty SSID joins the set, the probe
count always increments. -/
def add_probe (p : ProbeProfile) (ssid : String) : ProbeProfile :=
  { p with
    probed_ssids :=
      if ssid = "" then p.probed_ssids
      else if p.probed_ssids.contains ssid then p.probed_ssids
      else p.probed_ssids ++ [ssid]
    probe_count := p.probe_count + 1 }

/-- `WiFiFingerprinter.fingerprint_from_probe`: record the probe in the
profile, extract capabilities (passing no extended rates), and hash them
together with the probed-SSID set of the profile. -/
def fingerprint_from_probe (prof : ProbeProfile) (ssid : String)
    (supported_rates : List Int) (ht_capabilities vht_capabilities : Option String)
    (vendor_ies : Option (List VendorIE)) : ProbeProfile × String :=
  let prof' := add_probe prof ssid
  let caps := extract_capabilities (some supported_rates) none
    ht_capabilities vht_capabilities vendor_ies
  let fp := compute_fingerprint caps (some prof'.probed_ssids)
  ({ prof' with capabilities := some caps }, fp)

/-! ## Upstream device poller (`src/scanners/kismet_controller.py`)

Timestamps are epoch seconds (`Nat`).  A raw device is the JSON dict the
daemon returns; each field is `Option` (absent key = `none`) and
`_parse_device` applies the `dict.get` defaults.  `dot11_ssid` and
`dot11_probes` stand for `raw["dot11.device"]["dot11.device.last_beaconed_ssid"]`
and the `"dot11.probedssid.ssid"` entries of the probed-SSID map. -/

structure RawDevice where
  macaddr : Option String := none
  typ : Option String := none
  first_time : Option Nat := none
  last_time : Option Nat := none
  channel : Option Int := none
  frequency : Option Int := none
  rssi : Option Int := none
  manuf : Option String := none
  packets : Option Int := none
  key : Option String := none
  name : Option String := none
  dot11_ssid : Option String := none
  dot11_probes : Option (List String) := none
deriving Repr, DecidableEq

/-- The `KismetDevice` dataclass. -/
structure KismetDevice where
  mac : String
  device_type : String
  first_seen : Nat
  last_seen : Nat
  channel : Int := 0
  frequency : Int := 0
  rssi : Int := -100
  ssid : Option String := none
  encryption : Option String := none
  manufacturer : Option String := none
  probe_ssids : List String := []
  bt_name : Option String := none
  bt_class : Option Int := none
  bt_type : Option String := none
  kismet_key : Option String := none
  packets : Int := 0
deriving Repr, DecidableEq

/-- `KismetController._parse_device`.  `now` stands for `datetime.utcnow()`,
used when a raw timestamp is absent or 0 (falsy). -/
def parse_device (raw : RawDevice) (now : Nat) : KismetDevice :=
  let dev_type := raw.typ.getD "unknown"
  let device_type :=
    if dev_type = "Wi-Fi Device" then "wifi"
    else if dev_type = "BR/EDR" ∨ dev_type = "BTLE" then "bluetooth"
    else "unknown"
  let ft := raw.first_time.getD 0
  let lt := raw.last_time.getD 0
  let base : KismetDevice :=
    { mac := raw.macaddr.getD "00:00:00:00:00:00"
      device_type := device_type
      first_seen := if ft ≠ 0 then ft else now
      last_seen := if lt ≠ 0 then lt else now
      channel := raw.channel.getD 0
      frequency := raw.frequency.getD 0
      rssi := raw.rssi.getD (-100)
      manufacturer := some (raw.manuf.getD "")
      packets := raw.packets.getD 0
      kismet_key := some (raw.key.getD "") }
  if device_type = "wifi" then
    { base with
      ssid := some (raw.dot11_ssid.getD "")
      probe_ssids := (raw.dot11_probes.getD []).filter (· ≠ "") }
  else if device_type = "bluetooth" then
    { base with
      bt_name := some (raw.name.getD "")
      bt_type := some (if dev_type = "BTLE" then "ble" else "classic") }
  else base

/-- `KismetController.get_devices`: `_api_request` yields `none` on any
transport error (connection failure, timeout, HTTP error ≥ 400, or any
other exception), and `get_devices` turns a falsy result into `[]`
(`return result if result else []`). -/
def get_devices (fetchResult : Option (List RawDevice)) : List RawDevice :=
  fetchResult.getD []

/-- The poller state: the `_devices` dict (insertion-ordered association
list keyed by MAC) and `_last_poll_time`. -/
structure PollState where
  devices : List (String × KismetDevice) := []
  lastPollTime : Option Nat := none
deriving Repr, DecidableEq

/-- A callback invocation: `isNew = true` for the new-device callbacks,
`false` for the update callbacks. -/
structure PollEvent where
  isNew : Bool
  device : KismetDevice
deriving Repr, DecidableEq

/-- Processing of one raw device inside `_poll_devices`: parse, then emit a
new-device or update event and store the device under its MAC. -/
def pollOne (now : Nat) (acc : List (String × KismetDevice) × List PollEvent)
    (raw : RawDevice) : List (String × KismetDevice) × List PollEvent :=
  let d := parse_device raw now
  match acc.1.lookup d.mac with
  | none => (acc.1 ++ [(d.mac, d)], acc.2 ++ [⟨true, d⟩])
  | some _ => (updateAt (fun p => p.1 == d.mac) (fun _ => (d.mac, d)) acc.1, acc.2 ++ [⟨false, d⟩])

/-- `KismetController._poll_devices`: request devices seen since the last
poll (`fetchResult` is the transport outcome of that request), process each
raw device, and then set `_last_poll_time = time.time()` — the assignment
is the last statement of the method and runs on every iteration. -/
def poll_devices (st : PollState) (fetchResult : Option (List RawDevice))
    (now : Nat) : PollState × List PollEvent :=
  let raws := get_devices fetchResult
  let (devs, evs) := raws.foldl (pollOne now) (st.devices, [])
  ({ devices := devs, lastPollTime := some now }, evs)

/-! ## GPS service (`src/scanners/gps_logger.py`)

Coordinates are `Rat`; the sample timestamp is dropped (the claims under
verification do not mention it).  Subscriber callbacks are opaque handles
(`Nat`); a delivery is the pair (handle, sample). -/

structure GPSSample where
  latitude : Rat
  longitude : Rat
  altitude : Rat
  speed : Rat := 0
  heading : Rat := 0
  hdop : Rat := 99
  fix_quality : Nat := 0
  satellites : Nat := 0
  valid : Bool := false
deriving Repr, DecidableEq

structure GPSLoggerState where
  current_position : Option GPSSample := none
  position_history : List GPSSample := []
  fix_count : Nat := 0
  no_fix_count : Nat := 0
  callbacks : List Nat := []
  history_size : Nat := 100
deriving Repr, DecidableEq

/-- Python `l[-n:]`: the last `n` elements. -/
def takeLast {α : Type} (n : Nat) (l : List α) : List α := l.drop (l.length - n)

/-- `GPSLogger._update_position`, given the already-parsed sample: store it
as the current position; when it is valid, append it to the history (trimmed
to `history_size` when it overflows) and bump the fix counter, otherwise
bump the no-fix counter; in both cases deliver the sample to every
registered callback. -/
def _update_position (st : GPSLoggerState) (position : GPSSample) :
    GPSLoggerState × List (Nat × GPSSample) :=
  let st' :=
    if position.valid then
      let h := st.position_history ++ [position]
      { st with
        current_position := some position
        position_history := if h.length > st.history_size then takeLast st.history_size h else h
        fix_count := st.fix_count + 1 }
    else
      { st with
        current_position := some position
        no_fix_count := st.no_fix_count + 1 }
  (st', st.callbacks.map fun cb => (cb, position))

/-- `GPSLogger.get_current_position`: the (lat, lon, alt) triple of the
current position when it exists and is valid, zeros otherwise (the
`datetime.utcnow()` component of the returned tuple is dropped). -/
def get_current_position (st : GPSLoggerState) : Rat × Rat × Rat :=
  match st.current_position with
  | some p => if p.valid then (p.latitude, p.longitude, p.altitude) else (0, 0, 0)
  | none => (0, 0, 0)

/-! ## Store (`src/core/database.py`)

Each table is a list of row structures in insertion (rowid) order; `id`
columns are omitted — `id INTEGER PRIMARY KEY AUTOINCREMENT` makes them
unique, so `fetchone` + `UPDATE ... WHERE id = ?` updates exactly the first
row matched by the preceding `SELECT`, which `updateAt` captures.  ISO
datetime strings (`.isoformat()`) are opaque `String`s, SQL REAL is `Rat`,
JSON columns hold the serialized text.  `session_id` is modelled as always
present (the schema declares it NOT NULL).  The columns `is_duplicate` and
`duplicate_of_id` keep their defaults in every modelled operation and are
omitted. -/

/-- The `WiFiDevice` dataclass, as bound into the SQL statements of
`_do_insert_wifi`.  `fingerprint_data` is the serialized JSON parameter
`json.dumps(device.fingerprint_data) if device.fingerprint_data else None`
(so `none` covers both Python `None` and a falsy empty dict). -/
structure WiFiDevice where
  device_key : String
  bssid : String
  essid : Option String := none
  device_type : String := "unknown"
  channel : Option Int := none
  frequency : Option Int := none
  signal_dbm : Option Int := none
  encryption : Option String := none
  manufacturer : Option String := none
  packets_total : Int := 0
  first_seen : String
  last_seen : String
  gps_lat : Option Rat := none
  gps_lon : Option Rat := none
  gps_alt : Option Rat := none
  gps_valid : Bool := false
  fingerprint_hash : Option String := none
  fingerprint_data : Option String := none
  is_known : Bool := false
  identified_as : Option String := none
  session_id : String
  seen_by_nodes : List String := []
deriving Repr, DecidableEq

/-- The `BTDevice` dataclass, as bound into `_do_insert_bt`. -/
structure BTDevice where
  device_key : String
  mac_address : String
  device_name : Option String := none
  device_type : String := "unknown"
  device_class : Option String := none
  rssi : Option Int := none
  manufacturer : Option String := none
  service_uuids : List String := []
  first_seen : String
  last_seen : String
  gps_lat : Option Rat := none
  gps_lon : Option Rat := none
  gps_alt : Option Rat := none
  gps_valid : Bool := false
  fingerprint_hash : Option String := none
  fingerprint_data : Option String := none
  is_known : Bool := false
  identified_as : Option String := none
  session_id : String
  seen_by_nodes : List String := []
deriving Repr, DecidableEq

/-- A row of the `wifi_devices` table. -/
structure WifiRow where
  session_id : String
  device_key : String
  bssid : String
  essid : Option String
  device_type : String
  channel : Option Int
  frequency : Option Int
  signal_dbm : Option Int
  encryption : Option String
  manufacturer : Option String
  packets_total : Int
  first_seen : String
  last_seen : String
  gps_lat : Option Rat
  gps_lon : Option Rat
  gps_alt : Option Rat
  gps_valid : Bool
  fingerprint_hash : Option String
  fingerprint_data : Option String
  is_known : Bool
  identified_as : Option String
  seen_by_nodes : String
deriving Repr, DecidableEq

/-- A row of the `bt_devices` table. -/
structure BTRow where
  session_id : String
  device_key : String
  mac_address : String
  device_name : Option String
  device_type : String
  device_class : Option String
  rssi : Option Int
  manufacturer : Option String
  service_uuids : String
  first_seen : String
  last_seen : String
  gps_lat : Option Rat
  gps_lon : Option Rat
  gps_alt : Option Rat
  gps_valid : Bool
  fingerprint_hash : Option String
  fingerprint_data : Option String
  is_known : Bool
  identified_as : Option String
  seen_by_nodes : String
deriving Repr, DecidableEq

/-- `json.dumps` of a list of strings (the `service_uuids` /
`seen_by_nodes` columns). -/
def jsonStrList (l : List String) : String := jsonList (l.map jsonStr)

def wifiKeyMatch (d : WiFiDevice) (r : WifiRow) : Bool :=
  r.session_id == d.session_id && r.device_key == d.device_key

/-- The UPDATE branch of `_do_insert_wifi`: COALESCE keeps the existing
value unless the bound parameter is non-NULL; `signal_dbm`,
`packets_total`, `last_seen` and the GPS columns are plain assignments. -/
def mergeWifi (r : WifiRow) (d : WiFiDevice) : WifiRow :=
  { r with
    essid := coalesce d.essid r.essid
    channel := coalesce d.channel r.channel
    frequency := coalesce d.frequency r.frequency
    signal_dbm := d.signal_dbm
    encryption := coalesce d.encryption r.encryption
    packets_total := d.packets_total
    last_seen := d.last_seen
    gps_lat := d.gps_lat
    gps_lon := d.gps_lon
    gps_alt := d.gps_alt
    gps_valid := d.gps_valid
    fingerprint_hash := coalesce d.fingerprint_hash r.fingerprint_hash
    fingerprint_data := coalesce d.fingerprint_data r.fingerprint_data }

/-- The INSERT branch of `_do_insert_wifi`. -/
def newWifiRow (d : WiFiDevice) : WifiRow :=
  { session_id := d.session_id
    device_key := d.device_key
    bssid := d.bssid
    essid := d.essid
    device_type := d.device_type
    channel := d.channel
    frequency := d.frequency
    signal_dbm := d.signal_dbm
    encryption := d.encryption
    manufacturer := d.manufacturer
    packets_total := d.packets_total
    first_seen := d.first_seen
    last_seen := d.last_seen
    gps_lat := d.gps_lat
    gps_lon := d.gps_lon
    gps_alt := d.gps_alt
    gps_valid := d.gps_valid
    fingerprint_hash := d.fingerprint_hash
    fingerprint_data := d.fingerprint_data
    is_known := d.is_known
    identified_as := d.identified_as
    seen_by_nodes := jsonStrList d.seen_by_nodes }

/-- `Database._do_insert_wifi`: update the existing `(session_id,
device_key)` row if there is one, insert a new row otherwise. -/
def _do_insert_wifi (t : List WifiRow) (d : WiFiDevice) : List WifiRow :=
  if t.any (wifiKeyMatch d) then updateAt (wifiKeyMatch d) (fun r => mergeWifi r d) t
  else t ++ [newWifiRow d]

def btKeyMatch (d : BTDevice) (r : BTRow) : Bool :=
  r.session_id == d.session_id && r.device_key == d.device_key

/-- The UPDATE branch of `_do_insert_bt`.  Note `service_uuids` binds
`json.dumps(device.service_uuids)`, which is never NULL, so its COALESCE
always takes the incoming value. -/
def mergeBt (r : BTRow) (d : BTDevice) : BTRow :=
  { r with
    device_name := coalesce d.device_name r.device_name
    device_class := coalesce d.device_class r.device_class
    rssi := d.rssi
    service_uuids := (coalesce (some (jsonStrList d.service_uuids)) (some r.service_uuids)).getD r.service_uuids
    last_seen := d.last_seen
    gps_lat := d.gps_lat
    gps_lon := d.gps_lon
    gps_alt := d.gps_alt
    gps_valid := d.gps_valid
    fingerprint_hash := coalesce d.fingerprint_hash r.fingerprint_hash
    fingerprint_data := coalesce d.fingerprint_data r.fingerprint_data }

/-- The INSERT branch of `_do_insert_bt`. -/
def newBtRow (d : BTDevice) : BTRow :=
  { session_id := d.session_id
    device_key := d.device_key
    mac_address := d.mac_address
    device_name := d.device_name
    device_type := d.device_type
    device_class := d.device_class
    rssi := d.rssi
    manufacturer := d.manufacturer
    service_uuids := jsonStrList d.service_uuids
    first_seen := d.first_seen
    last_seen := d.last_seen
    gps_lat := d.gps_lat
    gps_lon := d.gps_lon
    gps_alt := d.gps_alt
    gps_valid := d.gps_valid
    fingerprint_hash := d.fingerprint_hash
    fingerprint_data := d.fingerprint_data
    is_known := d.is_known
    identified_as := d.identified_as
    seen_by_nodes := jsonStrList d.seen_by_nodes }

/-- `Database._do_insert_bt`. -/
def _do_insert_bt (t : List BTRow) (d : BTDevice) : List BTRow :=
  if t.any (btKeyMatch d) then updateAt (btKeyMatch d) (fun r => mergeBt r d) t
  else t ++ [newBtRow d]

/-- A row of `fingerprint_signatures`. -/
structure SigRow where
  fingerprint_hash : String
  device_type : String
  device_model : Option String
  os_version : Option String
  confidence : Rat
  identifiers : String
  first_seen : String
  times_seen : Nat
  notes : Option String
deriving Repr, DecidableEq

/-- The `FingerprintSignature` dataclass as bound into `insert_signature`
(`identifiers` already serialized by `json.dumps`). -/
structure FingerprintSignature where
  fingerprint_hash : String
  device_type : String
  device_model : Option String := none
  os_version : Option String := none
  confidence : Rat := 0
  identifiers : String := "\x7b\x7d"
  first_seen : String
  notes : Option String := none
deriving Repr, DecidableEq

def sigMatch (s : FingerprintSignature) (r : SigRow) : Bool :=
  r.fingerprint_hash == s.fingerprint_hash

/-- The INSERT branch of `insert_signature`; `times_seen` is omitted from
the column list, so the schema default 1 applies. -/
def newSigRow (s : FingerprintSignature) : SigRow :=
  { fingerprint_hash := s.fingerprint_hash
    device_type := s.device_type
    device_model := s.device_model
    os_version := s.os_version
    confidence := s.confidence
    identifiers := s.identifiers
    first_seen := s.first_seen
    times_seen := 1
    notes := s.notes }

/-- `Database.insert_signature`: an existing row for the hash gets
`times_seen` incremented by 1 and nothing else; otherwise a fresh row is
inserted. -/
def insert_signature (t : List SigRow) (s : FingerprintSignature) : List SigRow :=
  if t.any (sigMatch s) then
    updateAt (sigMatch s) (fun r => { r with times_seen := r.times_seen + 1 }) t
  else t ++ [newSigRow s]

/-- A row of `scan_sessions`. -/
structure SessionRow where
  session_id : String
  start_time : String
  end_time : Option String
  status : String
  property_id : Option String
  operator : Option String
  scan_type : String
  notes : Option String
  node_id : Option String
  swarm_session_id : Option String
  wifi_device_count : Int
  bt_device_count : Int
deriving Repr, DecidableEq

/-- The `ScanSession` dataclass as bound into `create_session` (the status
enum already turned into its string value). -/
structure ScanSession where
  session_id : String
  start_time : String
  end_time : Option String := none
  status : String := "starting"
  property_id : Option String := none
  operator : Option String := none
  scan_type : String := "both"
  notes : Option String := none
  node_id : Option String := none
  swarm_session_id : Option String := none
  wifi_device_count : Int := 0
  bt_device_count : Int := 0
deriving Repr, DecidableEq

/-- A row of `gps_track`. -/
structure GpsRow where
  session_id : String
  timestamp : String
  latitude : Option Rat
  longitude : Option Rat
  altitude : Option Rat
  speed : Option Rat
  track : Option Rat
  fix_quality : Int
  hdop : Option Rat
  satellites : Int
deriving Repr, DecidableEq

/-- The store: one list per table, in rowid order. -/
structure DB where
  scan_sessions : List SessionRow := []
  wifi_devices : List WifiRow := []
  bt_devices : List BTRow := []
  gps_track : List GpsRow := []
  fingerprint_signatures : List SigRow := []
deriving Repr, DecidableEq

/-- `Database.create_session`: INSERT with `end_time` NULL and the device
counters at their schema defaults. -/
def create_session (db : DB) (s : ScanSession) : DB :=
  { db with
    scan_sessions := db.scan_sessions ++
      [{ session_id := s.session_id
         start_time := s.start_time
         end_time := none
         status := s.status
         property_id := s.property_id
         operator := s.operator
         scan_type := s.scan_type
         notes := s.notes
         node_id := s.node_id
         swarm_session_id := s.swarm_session_id
         wifi_device_count := 0
         bt_device_count := 0 }] }

/-- `Database.end_session`: `UPDATE scan_sessions SET end_time = ? WHERE
session_id = ?` — only `end_time` is written. -/
def end_session (db : DB) (session_id : String) (end_time : String) : DB :=
  { db with
    scan_sessions := db.scan_sessions.map fun r =>
      if r.session_id == session_id then { r with end_time := some end_time } else r }

/-- `Database.insert_gps_point` (the timestamp already formatted). -/
def insert_gps_point (db : DB) (session_id : String)
    (lat lon alt : Option Rat) (speed track : Option Rat)
    (fix_quality : Int) (hdop : Option Rat) (satellites : Int)
    (timestamp : String) : DB :=
  { db with
    gps_track := db.gps_track ++
      [{ session_id := session_id
         timestamp := timestamp
         latitude := lat
         longitude := lon
         altitude := alt
         speed := speed
         track := track
         fix_quality := fix_quality
         hdop := hdop
         satellites := satellites }] }

/-- The successful path of `Database.insert_wifi_device` (`_do_insert_wifi`). -/
def insert_wifi_device (db : DB) (d : WiFiDevice) : DB :=
  { db with wifi_devices := _do_insert_wifi db.wifi_devices d }

/-- The successful path of `Database.insert_bt_device` (`_do_insert_bt`). -/
def insert_bt_device (db : DB) (d : BTDevice) : DB :=
  { db with bt_devices := _do_insert_bt db.bt_devices d }

/-- `Database.get_session`: the first row with the given id. -/
def get_session (db : DB) (session_id : String) : Option SessionRow :=
  db.scan_sessions.find? (fun r => r.session_id == session_id)

/-- The dict returned by `Database.get_session_stats`. -/
structure SessionStats where
  wifi_devices : Nat
  wifi_unknown : Nat
  bt_devices : Nat
  bt_unknown : Nat
  gps_points : Nat
deriving Repr, DecidableEq

/-- `Database.get_session_stats`: COUNT(*) per table filtered by
session (and `is_known = FALSE` for the unknown counters). -/
def get_session_stats (db : DB) (session_id : String) : SessionStats :=
  { wifi_devices := (db.wifi_devices.filter (fun r => r.session_id == session_id)).length
    wifi_unknown := (db.wifi_devices.filter
      (fun r => r.session_id == session_id && r.is_known == false)).length
    bt_devices := (db.bt_devices.filter (fun r => r.session_id == session_id)).length
    bt_unknown := (db.bt_devices.filter
      (fun r => r.session_id == session_id && r.is_known == false)).length
    gps_points := (db.gps_track.filter (fun r => r.session_id == session_id)).length }

/-! ### Spatial query -/

/-- One result row of `get_devices_near`: the wifi row together with its
`dist_sq` projection. -/
structure NearRow where
  row : WifiRow
  dist_sq : Rat
deriving Repr, DecidableEq

/-- Insertion into a list sorted by a boolean comparison. -/
def insertBy {α : Type} (le : α → α → Bool) (x : α) : List α → List α
  | [] => [x]
  | y :: ys => if le x y then x :: y :: ys else y :: insertBy le x ys

/-- Insertion sort by a boolean comparison (the model of `ORDER BY`). -/
def sortBy {α : Type} (le : α → α → Bool) (l : List α) : List α :=
  l.foldr (insertBy le) []

def nearLe (a b : NearRow) : Bool := a.dist_sq ≤ b.dist_sq

/-- The WHERE clause of `get_devices_near`: `gps_lat BETWEEN ? AND ? AND
gps_lon BETWEEN ? AND ?` plus the optional session filter.  A NULL
coordinate fails BETWEEN (SQL three-valued logic), excluding the row. -/
def nearFilter (lat lon degRadius : Rat) (session_id : Option String)
    (r : WifiRow) : Bool :=
  match r.gps_lat, r.gps_lon with
  | some la, some lo =>
    decide (lat - degRadius ≤ la) && decide (la ≤ lat + degRadius) &&
    decide (lon - degRadius ≤ lo) && decide (lo ≤ lon + degRadius) &&
    (match session_id with
     | some s => r.session_id == s
     | none => true)
  | _, _ => false

/-- `Database.get_devices_near`: a SELECT over `wifi_devices` only, with
`deg_radius = radius_m / 111000`, the bounding-box filter, the
`dist_sq = (gps_lat - lat)² + (gps_lon - lon)²` projection (in squared
degrees), and `ORDER BY dist_sq` ascending. -/
def get_devices_near (db : DB) (lat lon radius_m : Rat)
    (session_id : Option String) : List NearRow :=
  let degRadius := radius_m / 111000
  let sel := db.wifi_devices.filter (nearFilter lat lon degRadius session_id)
  let projected := sel.map fun r =>
    { row := r
      dist_sq := (r.gps_lat.getD 0 - lat) * (r.gps_lat.getD 0 - lat) +
                 (r.gps_lon.getD 0 - lon) * (r.gps_lon.getD 0 - lon) }
  sortBy nearLe projected

/-! ### Failed-write buffer and `import_buffered_records`

A buffer file is `buffer_<kind>_<epoch>.jsonl` under `backup_dir`; `kind`
is `stem.split("_")[1]`.  `_buffer_to_file` — the only writer of buffer
files — appends one `device.to_dict()` JSON object per line.  Draining
runs `json.loads(line)`, the dataclass constructor, and
`_do_insert_wifi` / `_do_insert_bt`, all inside one per-line `try/except`
that logs and skips the line on any exception.  After the line loop the
source runs `buffer_file.unlink()` unconditionally.

A dataclass rebuilt by `WiFiDevice(**json.loads(line))` keeps the JSON
types.  `to_dict()` serializes `device_type` as the enum's string value
and `first_seen` / `last_seen` via `.isoformat()`, so the reconstructed
record carries plain `str`s in those three fields; the insert code then
evaluates `device.device_type.value` (INSERT branch, database.py:482) and
`device.first_seen.isoformat()` / `device.last_seen.isoformat()`
(database.py:489/:490, and :456 in the UPDATE branch; for bt :621/:626/
:627 and :596) — attribute lookups that raise `AttributeError` on a plain
string.  They succeed only on a well-typed dataclass value (a `DeviceType`
enum / `datetime`, e.g. the constructor defaults when a key is absent from
the JSON), where they return exactly the stored string. -/

/-- A device record on the drain path.  `fields` holds every attribute at
the value the SQL layer would bind; the three flags record whether
`device_type`, `first_seen` and `last_seen` are well-typed dataclass
objects (`DeviceType` enum / `datetime` — `.value` / `.isoformat()`
succeed and return the stored string) or the plain JSON strings a
`to_dict()` line always produces, on which the attribute lookup raises
`AttributeError`. -/
structure DynWiFiDevice where
  fields : WiFiDevice
  typed_device_type : Bool
  typed_first_seen : Bool
  typed_last_seen : Bool
deriving Repr, DecidableEq

/-- A bt record on the drain path; same reading as `DynWiFiDevice`. -/
structure DynBTDevice where
  fields : BTDevice
  typed_device_type : Bool
  typed_first_seen : Bool
  typed_last_seen : Bool
deriving Repr, DecidableEq

/-- `WiFiDevice(**json.loads(line))` for a line `_buffer_to_file` wrote:
`to_dict()` always emits `device_type`, `first_seen` and `last_seen`, so
all three come back as plain JSON strings. -/
def roundTripWifi (d : WiFiDevice) : DynWiFiDevice := ⟨d, false, false, false⟩

/-- `BTDevice(**json.loads(line))` for a line `_buffer_to_file` wrote. -/
def roundTripBt (d : BTDevice) : DynBTDevice := ⟨d, false, false, false⟩

/-- `_do_insert_wifi` as invoked on the drain path, with the attribute
accesses made explicit: the UPDATE branch binds
`device.last_seen.isoformat()`; the INSERT branch additionally binds
`device.device_type.value` and `device.first_seen.isoformat()`.  Any of
them on a plain string raises `AttributeError`; the transaction rolls back
and the exception propagates to the per-line handler
(`Except.error`). -/
def _do_insert_wifi_dyn (t : List WifiRow) (d : DynWiFiDevice) :
    Except Unit (List WifiRow) :=
  if t.any (wifiKeyMatch d.fields) then
    if d.typed_last_seen then
      .ok (updateAt (wifiKeyMatch d.fields) (fun r => mergeWifi r d.fields) t)
    else .error ()
  else
    if d.typed_device_type && d.typed_first_seen && d.typed_last_seen then
      .ok (t ++ [newWifiRow d.fields])
    else .error ()

/-- `_do_insert_bt` as invoked on the drain path (attribute accesses at
database.py:596 for the UPDATE branch, :621/:626/:627 for INSERT). -/
def _do_insert_bt_dyn (t : List BTRow) (d : DynBTDevice) :
    Except Unit (List BTRow) :=
  if t.any (btKeyMatch d.fields) then
    if d.typed_last_seen then
      .ok (updateAt (btKeyMatch d.fields) (fun r => mergeBt r d.fields) t)
    else .error ()
  else
    if d.typed_device_type && d.typed_first_seen && d.typed_last_seen then
      .ok (t ++ [newBtRow d.fields])
    else .error ()

inductive JsonLine where
  | wifiRec (d : DynWiFiDevice)
  | btRec (d : DynBTDevice)
  | invalid
deriving Repr, DecidableEq

structure BufFile where
  kind : String
  lines : List JsonLine
deriving Repr, DecidableEq

/-- One line of a `wifi` buffer file: decode, rebuild the dataclass, and
run the insert; a successful insert bumps the imported counter, while any
raised exception — an undecodable line (`JsonLine.invalid`), a record of
the other kind, or the `AttributeError` out of the insert — is caught,
logged, and the line skipped. -/
def importLineWifi (acc : DB × Nat) (line : JsonLine) : DB × Nat :=
  match line with
  | .wifiRec d =>
    match _do_insert_wifi_dyn acc.1.wifi_devices d with
    | .ok t => ({ acc.1 with wifi_devices := t }, acc.2 + 1)
    | .error _ => acc
  | _ => acc

/-- One line of a `bt` buffer file. -/
def importLineBt (acc : DB × Nat) (line : JsonLine) : DB × Nat :=
  match line with
  | .btRec d =>
    match _do_insert_bt_dyn acc.1.bt_devices d with
    | .ok t => ({ acc.1 with bt_devices := t }, acc.2 + 1)
    | .error _ => acc
  | _ => acc

/-- Processing of one buffer file: replay the lines matching the kind of the file; a kind other than `wifi`/`bt` matches no branch and imports
nothing. -/
def importFile (acc : DB × Nat) (f : BufFile) : DB × Nat :=
  if f.kind = "wifi" then f.lines.foldl importLineWifi acc
  else if f.kind = "bt" then f.lines.foldl importLineBt acc
  else acc

/-- `Database.import_buffered_records`: process every buffer file and
unlink each one afterwards (unconditionally), returning the new store
state, the buffer files left on disk, and the imported-record count. -/
def import_buffered_records (db : DB) (files : List BufFile) :
    DB × List BufFile × Nat :=
  let r := files.foldl importFile (db, 0)
  (r.1, [], r.2)

/-! ## General lemmas about the helpers -/

theorem mem_insertBy {α : Type} (le : α → α → Bool) (x : α) :
    ∀ (l : List α) (y : α), y ∈ insertBy le x l ↔ y = x ∨ y ∈ l
  | [], y => by simp [insertBy]
  | z :: zs, y => by
    by_cases h : le x z = true
    · rw [insertBy, if_pos h]
      exact List.mem_cons
    · rw [insertBy, if_neg h]
      rw [List.mem_cons, mem_insertBy le x zs y, List.mem_cons]
      tauto

theorem mem_sortBy {α : Type} (le : α → α → Bool) :
    ∀ (l : List α) (y : α), y ∈ sortBy le l ↔ y ∈ l
  | [], y => by simp [sortBy]
  | z :: zs, y => by
    simp only [sortBy, List.foldr_cons]
    rw [show List.foldr (insertBy le) [] zs = sortBy le zs from rfl] at *
    rw [mem_insertBy, mem_sortBy le zs y, List.mem_cons]

theorem pairwise_insertBy {α : Type} (le : α → α → Bool)
    (htot : ∀ a b, le a b = false → le b a = true)
    (htrans : ∀ a b c, le a b = true → le b c = true → le a c = true) :
    ∀ (l : List α) (x : α), l.Pairwise (fun a b => le a b = true) →
      (insertBy le x l).Pairwise (fun a b => le a b = true) := by
  intro l
  induction l with
  | nil => intro x _; simp [insertBy]
  | cons y ys ih =>
    intro x h
    rw [List.pairwise_cons] at h
    obtain ⟨hy, hys⟩ := h
    by_cases hxy : le x y = true
    · rw [insertBy, if_pos hxy]
      refine List.Pairwise.cons ?_ (List.Pairwise.cons hy hys)
      intro z hz
      rcases List.mem_cons.mp hz with rfl | hz
      · exact hxy
      · exact htrans x y z hxy (hy z hz)
    · rw [insertBy, if_neg hxy]
      refine List.Pairwise.cons ?_ (ih x hys)
      intro z hz
      rcases (mem_insertBy le x ys z).mp hz with hzx | hz
      · rw [hzx]
        exact htot x y (Bool.eq_false_iff.mpr hxy)
      · exact hy z hz

theorem pairwise_sortBy {α : Type} (le : α → α → Bool)
    (htot : ∀ a b, le a b = false → le b a = true)
    (htrans : ∀ a b c, le a b = true → le b c = true → le a c = true) :
    ∀ l : List α, (sortBy le l).Pairwise (fun a b => le a b = true) := by
  intro l
  induction l with
  | nil => simp [sortBy]
  | cons z zs ih => exact pairwise_insertBy le htot htrans _ z ih

theorem updateAt_append_of_none {α : Type} (p : α → Bool) (f : α → α) :
    ∀ (t rest : List α), (∀ r ∈ t, p r = false) →
      updateAt p f (t ++ rest) = t ++ updateAt p f rest := by
  intro t
  induction t with
  | nil => intro rest _; rfl
  | cons r rs ih =>
    intro rest h
    rw [List.cons_append, updateAt, if_neg, List.cons_append, ih rest]
    · intro q hq
      exact h q (List.mem_cons_of_mem r hq)
    · simp [h r (List.mem_cons_self r rs)]

theorem beBytes_length (k : Nat) : ∀ n, (beBytes k n).length = k := by
  induction k with
  | zero => intro n; rfl
  | succ k ih => intro n; simp [beBytes, ih]

theorem sha256_length (msg : List Nat) : (sha256 msg).length = 32 := by
  simp [sha256, hashBytes, beBytes_length]

theorem foldrHex_length :
    ∀ l : List Nat, (l.foldr (fun b acc => byteHex b ++ acc) []).length = 2 * l.length
  | [] => rfl
  | b :: bs => by
    show (byteHex b ++ bs.foldr (fun b acc => byteHex b ++ acc) []).length = 2 * (bs.length + 1)
    rw [List.length_append, foldrHex_length bs]
    show 2 + 2 * bs.length = 2 * (bs.length + 1)
    omega

theorem sha256hex_length (msg : List Nat) : (sha256hex msg).length = 64 := by
  show ((sha256 msg).foldr (fun b acc => byteHex b ++ acc) []).length = 64
  rw [foldrHex_length, sha256_length]

theorem hexNibble_mem (n : Nat) : hexNibble n ∈ hexDigits := by
  have h : n % 16 < 16 := Nat.mod_lt _ (by norm_num)
  unfold hexNibble
  set m := n % 16 with hm
  interval_cases m <;> decide

theorem sha256hex_mem (msg : List Nat) :
    ∀ c ∈ (sha256hex msg).data, c ∈ hexDigits := by
  show ∀ c ∈ (sha256 msg).foldr (fun b acc => byteHex b ++ acc) [], c ∈ hexDigits
  generalize sha256 msg = l
  induction l with
  | nil => simp
  | cons b bs ih =>
    intro c hc
    rcases List.mem_append.mp (by simpa using hc) with h | h
    · rcases List.mem_cons.mp h with rfl | h
      · exact hexNibble_mem _
      · rcases List.mem_cons.mp h with rfl | h
        · exact hexNibble_mem _
        · simp at h
    · exact ih c h

/-! ## Claims -/

/-- C8: every GPS sample processed by `_update_position` — valid or not —
is delivered to all registered subscribers; only valid samples are appended
to the position history, which stays bounded by `history_size`; and when
the current sample is not valid, `get_current_position` returns zeros for
latitude, longitude and altitude. -/
theorem spec_c8_gps_invariants (st : GPSLoggerState) (pos : GPSSample) :
    (_update_position st pos).2 = st.callbacks.map (fun cb => (cb, pos)) ∧
    (_update_position st pos).1.current_position = some pos ∧
    (_update_position st pos).1.position_history =
      (if pos.valid then
        (if (st.position_history ++ [pos]).length > st.history_size
         then takeLast st.history_size (st.position_history ++ [pos])
         else st.position_history ++ [pos])
       else st.position_history) ∧
    get_current_position (_update_position st pos).1 =
      (if pos.valid then (pos.latitude, pos.longitude, pos.altitude) else (0, 0, 0)) := by
  cases h : pos.valid <;>
    simp [_update_position, get_current_position, h]

/-- C2 (amended): `_poll_devices` sets `_last_poll_time = time.time()` at
the end of every poll iteration, including iterations whose device request
failed — a transport error makes `get_devices` return the empty list
(`_api_request` returns `None`), no events are emitted, the tracked devices
are unchanged, and the cursor still advances to `now`. -/
theorem spec_c2_amended (st : PollState) (fetchResult : Option (List RawDevice)) (now : Nat) :
    (poll_devices st fetchResult now).1.lastPollTime = some now ∧
    poll_devices st none now = ({ st with lastPollTime := some now }, []) := by
  exact ⟨rfl, rfl⟩

/-- C2 (counterexample): with the last successful poll at time 5, a poll
iteration at time 7 whose request fails (transport error, so `get_devices`
yields `[]`) still advances `_last_poll_time` to 7 — the claim says a
transport error leaves `since_ts` unchanged. -/
theorem spec_c2_counterexample :
    (poll_devices { devices := [], lastPollTime := some 5 } none 7).1.lastPollTime = some 7 ∧
    (poll_devices { devices := [], lastPollTime := some 5 } none 7).1.lastPollTime ≠ some 5 := by
  constructor
  · rfl
  · decide

/-- The drain-path insert restricted to a fully well-typed record (the
live path) coincides with `_do_insert_wifi`. -/
theorem wifi_dyn_typed_ok (t : List WifiRow) (d : WiFiDevice) :
    _do_insert_wifi_dyn t ⟨d, true, true, true⟩ = .ok (_do_insert_wifi t d) := by
  by_cases h : t.any (wifiKeyMatch d) = true <;>
    simp [_do_insert_wifi_dyn, _do_insert_wifi, h]

/-- The drain-path bt insert restricted to a fully well-typed record
coincides with `_do_insert_bt`. -/
theorem bt_dyn_typed_ok (t : List BTRow) (d : BTDevice) :
    _do_insert_bt_dyn t ⟨d, true, true, true⟩ = .ok (_do_insert_bt t d) := by
  by_cases h : t.any (btKeyMatch d) = true <;>
    simp [_do_insert_bt_dyn, _do_insert_bt, h]

/-- Replaying a JSON-round-tripped wifi record always raises: both the
UPDATE and the INSERT branch evaluate an attribute that is a plain string
on such a record. -/
theorem wifi_dyn_roundtrip_error (t : List WifiRow) (d : WiFiDevice) :
    _do_insert_wifi_dyn t (roundTripWifi d) = .error () := by
  by_cases h : t.any (wifiKeyMatch d) = true <;>
    simp [_do_insert_wifi_dyn, roundTripWifi, h]

/-- Replaying a JSON-round-tripped bt record always raises. -/
theorem bt_dyn_roundtrip_error (t : List BTRow) (d : BTDevice) :
    _do_insert_bt_dyn t (roundTripBt d) = .error () := by
  by_cases h : t.any (btKeyMatch d) = true <;>
    simp [_do_insert_bt_dyn, roundTripBt, h]

theorem importLinesWifi_roundtrip :
    ∀ (ds : List WiFiDevice) (acc : DB × Nat),
      (ds.map (fun d => JsonLine.wifiRec (roundTripWifi d))).foldl importLineWifi acc = acc := by
  intro ds
  induction ds with
  | nil => intro acc; rfl
  | cons d rest ih =>
    intro acc
    rw [List.map_cons, List.foldl_cons]
    have h : importLineWifi acc (JsonLine.wifiRec (roundTripWifi d)) = acc := by
      simp [importLineWifi, wifi_dyn_roundtrip_error acc.1.wifi_devices d]
    rw [h, ih]

theorem importLinesBt_roundtrip :
    ∀ (bs : List BTDevice) (acc : DB × Nat),
      (bs.map (fun b => JsonLine.btRec (roundTripBt b))).foldl importLineBt acc = acc := by
  intro bs
  induction bs with
  | nil => intro acc; rfl
  | cons b rest ih =>
    intro acc
    rw [List.map_cons, List.foldl_cons]
    have h : importLineBt acc (JsonLine.btRec (roundTripBt b)) = acc := by
      simp [importLineBt, bt_dyn_roundtrip_error acc.1.bt_devices b]
    rw [h, ih]

def c1Dev : WiFiDevice :=
  { device_key := "K1", bssid := "AA:BB:CC:DD:EE:00",
    first_seen := "2025-12-25T12:00:00", last_seen := "2025-12-25T12:05:00",
    session_id := "s1" }

/-- C1 (code bug): the drain path evaluated on the store's own buffered
data.  A record written by `_buffer_to_file` round-trips through JSON with
plain-string `device_type`, `first_seen` and `last_seen`, so replaying it
raises `AttributeError` inside `_do_insert_wifi` / `_do_insert_bt`; the
per-line handler skips it, `import_buffered_records` re-imports nothing —
and still deletes every buffer file unconditionally.  Against the claim
(every line replayed through the normal insert path, files deleted only
after every line succeeded, no buffered record lost): the code loses every
buffered record it ever wrote. -/
theorem spec_c1_drain_discards_buffered_records :
    (∀ (t : List WifiRow) (d : WiFiDevice),
       _do_insert_wifi_dyn t (roundTripWifi d) = .error ()) ∧
    (∀ (t : List BTRow) (d : BTDevice),
       _do_insert_bt_dyn t (roundTripBt d) = .error ()) ∧
    (∀ (db : DB) (ds : List WiFiDevice),
       import_buffered_records db
         [⟨"wifi", ds.map (fun d => JsonLine.wifiRec (roundTripWifi d))⟩] = (db, [], 0)) ∧
    (∀ (db : DB) (bs : List BTDevice),
       import_buffered_records db
         [⟨"bt", bs.map (fun b => JsonLine.btRec (roundTripBt b))⟩] = (db, [], 0)) ∧
    (∀ (db : DB) (files : List BufFile),
       (import_buffered_records db files).2.1 = []) ∧
    import_buffered_records {} [⟨"wifi", [JsonLine.wifiRec (roundTripWifi c1Dev)]⟩] =
      ({}, [], 0) := by
  refine ⟨wifi_dyn_roundtrip_error, bt_dyn_roundtrip_error, ?_, ?_,
    fun db files => rfl, rfl⟩
  · intro db ds
    show (((ds.map (fun d => JsonLine.wifiRec (roundTripWifi d))).foldl importLineWifi
            (db, 0)).1, ([] : List BufFile),
          ((ds.map (fun d => JsonLine.wifiRec (roundTripWifi d))).foldl importLineWifi
            (db, 0)).2) = (db, [], 0)
    rw [importLinesWifi_roundtrip ds (db, 0)]
  · intro db bs
    show (((bs.map (fun b => JsonLine.btRec (roundTripBt b))).foldl importLineBt
            (db, 0)).1, ([] : List BufFile),
          ((bs.map (fun b => JsonLine.btRec (roundTripBt b))).foldl importLineBt
            (db, 0)).2) = (db, [], 0)
    rw [importLinesBt_roundtrip bs (db, 0)]

/-! ### C9: session-lifecycle scenario -/

def c9SessionId : String := "airdump_scan_20251225_120000"

def c9Wifi (bssid : String) : WiFiDevice :=
  { device_key := bssid
    bssid := bssid
    first_seen := "2025-12-25T12:00:01"
    last_seen := "2025-12-25T12:05:00"
    session_id := c9SessionId }

def c9Bt : BTDevice :=
  { device_key := "11:22:33:44:55:00"
    mac_address := "11:22:33:44:55:00"
    first_seen := "2025-12-25T12:00:02"
    last_seen := "2025-12-25T12:05:00"
    session_id := c9SessionId }

def c9AddGps (db : DB) (ts : String) : DB :=
  insert_gps_point db c9SessionId (some 51) (some 0) (some 50) none none 1 none 8 ts

/-- The scenario of claim C9, with the creation status of the session left
as a parameter: create the session, insert two wifi devices with distinct
device keys, one bt device, five GPS points, then `end_session`. -/
def c9Run (status : String) : DB :=
  let db := create_session {}
    { session_id := c9SessionId, start_time := "2025-12-25T12:00:00", status := status }
  let db := insert_wifi_device db (c9Wifi "AA:BB:CC:DD:EE:00")
  let db := insert_wifi_device db (c9Wifi "AA:BB:CC:DD:EE:01")
  let db := insert_bt_device db c9Bt
  let db := c9AddGps db "2025-12-25T12:01:00"
  let db := c9AddGps db "2025-12-25T12:02:00"
  let db := c9AddGps db "2025-12-25T12:03:00"
  let db := c9AddGps db "2025-12-25T12:04:00"
  let db := c9AddGps db "2025-12-25T12:05:00"
  end_session db c9SessionId "2025-12-25T12:30:00"

/-- C9 (amended): after the scenario, `get_session_stats` returns
`wifi_devices = 2`, `bt_devices = 1`, `gps_points = 5` and the session row
has `end_time` set; but `end_session` writes only `end_time`, so the status
keeps whatever value the session was created with — it reaches `"stopped"`
only through a separate `update_session` call. -/
theorem spec_c9_amended (status : String) :
    get_session_stats (c9Run status) c9SessionId =
      { wifi_devices := 2, wifi_unknown := 2, bt_devices := 1, bt_unknown := 1,
        gps_points := 5 } ∧
    (get_session (c9Run status) c9SessionId).map (fun r => r.end_time) =
      some (some "2025-12-25T12:30:00") ∧
    (get_session (c9Run status) c9SessionId).map (fun r => r.status) = some status := by
  exact ⟨rfl, rfl, rfl⟩

/-- C9 (counterexample): run the scenario with the `ScanSession` dataclass
default status `"starting"`.  The statistics come out as the claim says,
but the session row status is still `"starting"`, not `"stopped"`. -/
theorem spec_c9_counterexample :
    get_session_stats (c9Run "starting") c9SessionId =
      { wifi_devices := 2, wifi_unknown := 2, bt_devices := 1, bt_unknown := 1,
        gps_points := 5 } ∧
    (get_session (c9Run "starting") c9SessionId).map (fun r => r.status) ≠ some "stopped" := by
  refine ⟨rfl, ?_⟩
  decide

/-! ### C10: spatial query -/

/-- Unpacking the WHERE clause: a row passing `nearFilter` has non-NULL
coordinates inside the bounding box. -/
theorem nearFilter_spec (lat lon degRadius : Rat) (session_id : Option String)
    (r : WifiRow) (h : nearFilter lat lon degRadius session_id r = true) :
    ∃ la lo, r.gps_lat = some la ∧ r.gps_lon = some lo ∧
      lat - degRadius ≤ la ∧ la ≤ lat + degRadius ∧
      lon - degRadius ≤ lo ∧ lo ≤ lon + degRadius := by
  unfold nearFilter at h
  split at h
  next la lo hla hlo =>
    simp only [Bool.and_eq_true, decide_eq_true_eq] at h
    exact ⟨la, lo, hla, hlo, h.1.1.1.1, h.1.1.1.2, h.1.1.2, h.1.2⟩
  next => simp at h

/-- C10: `get_devices_near` reads only the `wifi_devices` table — its
result does not change under any replacement of the `bt_devices` table —
and every returned entry is a wifi row whose stored coordinates lie inside
the degree bounding box of half-side `radius_m / 111000` around the query
point, carrying `dist_sq = (gps_lat - lat)² + (gps_lon - lon)²`, with the
result ordered ascending by `dist_sq`. -/
theorem spec_c10_devices_near (db : DB) (lat lon radius_m : Rat)
    (session_id : Option String) (btRows : List BTRow) :
    (∀ x ∈ get_devices_near db lat lon radius_m session_id,
       x.row ∈ db.wifi_devices ∧
       ∃ la lo, x.row.gps_lat = some la ∧ x.row.gps_lon = some lo ∧
         lat - radius_m / 111000 ≤ la ∧ la ≤ lat + radius_m / 111000 ∧
         lon - radius_m / 111000 ≤ lo ∧ lo ≤ lon + radius_m / 111000 ∧
         x.dist_sq = (la - lat) * (la - lat) + (lo - lon) * (lo - lon)) ∧
    (get_devices_near db lat lon radius_m session_id).Pairwise
      (fun a b => a.dist_sq ≤ b.dist_sq) ∧
    get_devices_near { db with bt_devices := btRows } lat lon radius_m session_id =
      get_devices_near db lat lon radius_m session_id := by
  refine ⟨?_, ?_, rfl⟩
  · intro x hx
    have hx' : x ∈ (db.wifi_devices.filter
        (nearFilter lat lon (radius_m / 111000) session_id)).map (fun r =>
          ({ row := r
             dist_sq := (r.gps_lat.getD 0 - lat) * (r.gps_lat.getD 0 - lat) +
                        (r.gps_lon.getD 0 - lon) * (r.gps_lon.getD 0 - lon) } : NearRow)) :=
      (mem_sortBy nearLe _ x).mp hx
    rcases List.mem_map.mp hx' with ⟨r, hrsel, rfl⟩
    have hfil := List.mem_filter.mp hrsel
    refine ⟨hfil.1, ?_⟩
    rcases nearFilter_spec lat lon (radius_m / 111000) session_id r hfil.2 with
      ⟨la, lo, hla, hlo, hb1, hb2, hb3, hb4⟩
    exact ⟨la, lo, hla, hlo, hb1, hb2, hb3, hb4, by simp [hla, hlo]⟩
  · refine List.Pairwise.imp ?_
      (pairwise_sortBy nearLe ?_ ?_
        ((db.wifi_devices.filter (nearFilter lat lon (radius_m / 111000) session_id)).map
          (fun r =>
            ({ row := r
               dist_sq := (r.gps_lat.getD 0 - lat) * (r.gps_lat.getD 0 - lat) +
                          (r.gps_lon.getD 0 - lon) * (r.gps_lon.getD 0 - lon) } : NearRow))))
    · intro a b hab
      exact of_decide_eq_true hab
    · intro a b hab
      exact decide_eq_true (le_of_not_le (of_decide_eq_false hab))
    · intro a b c hab hbc
      exact decide_eq_true (le_trans (of_decide_eq_true hab) (of_decide_eq_true hbc))

/-! ### C6: raw type-label mapping of the poller -/

theorem pollEvents_length (now : Nat) :
    ∀ (raws : List RawDevice) (acc : List (String × KismetDevice) × List PollEvent),
      (raws.foldl (pollOne now) acc).2.length = acc.2.length + raws.length := by
  intro raws
  induction raws with
  | nil => intro acc; simp
  | cons r rs ih =>
    intro acc
    have h1 : (pollOne now acc r).2.length = acc.2.length + 1 := by
      cases h : acc.1.lookup (parse_device r now).mac <;> simp [pollOne, h]
    rw [List.foldl_cons, ih, h1, List.length_cons]
    omega

/-- C6 (amended): `_parse_device` maps only the exact raw label
`"Wi-Fi Device"` to wifi; `"BR/EDR"` maps to bluetooth with bt_type
classic, `"BTLE"` to bluetooth with bt_type ble; every other label —
including `"Wi-Fi AP"` and `"Wi-Fi Client"` — maps to unknown; and every
raw record of a successful poll is still emitted (one callback event per
raw device). -/
theorem spec_c6_amended (raw : RawDevice) (now : Nat) (st : PollState)
    (raws : List RawDevice) (s : String)
    (h1 : s ≠ "Wi-Fi Device") (h2 : s ≠ "BR/EDR") (h3 : s ≠ "BTLE") :
    (parse_device { raw with typ := some "Wi-Fi Device" } now).device_type = "wifi" ∧
    (parse_device { raw with typ := some "BR/EDR" } now).device_type = "bluetooth" ∧
    (parse_device { raw with typ := some "BR/EDR" } now).bt_type = some "classic" ∧
    (parse_device { raw with typ := some "BTLE" } now).device_type = "bluetooth" ∧
    (parse_device { raw with typ := some "BTLE" } now).bt_type = some "ble" ∧
    (parse_device { raw with typ := some "Wi-Fi AP" } now).device_type = "unknown" ∧
    (parse_device { raw with typ := some "Wi-Fi Client" } now).device_type = "unknown" ∧
    (parse_device { raw with typ := some s } now).device_type = "unknown" ∧
    (poll_devices st (some raws) now).2.length = raws.length := by
  refine ⟨rfl, rfl, rfl, rfl, rfl, rfl, rfl, ?_, ?_⟩
  · simp [parse_device, h1, h2, h3]
  · show (raws.foldl (pollOne now) (st.devices, [])).2.length = raws.length
    rw [pollEvents_length now raws (st.devices, [])]
    simp

/-- Witness for C6: the amended mapping applied to the concrete label
`"Wi-Fi AP"`. -/
theorem spec_c6_witness :
    (parse_device { ({} : RawDevice) with typ := some "Wi-Fi AP" } 0).device_type
      = "unknown" :=
  (spec_c6_amended {} 0 {} [] "Wi-Fi AP" (by decide) (by decide) (by decide)).2.2.2.2.2.1

/-- C6 (counterexample): the claim maps the raw label `"Wi-Fi AP"` to
wifi, but `_parse_device` compares only against `"Wi-Fi Device"`, so a
`"Wi-Fi AP"` record comes out as unknown. -/
theorem spec_c6_counterexample :
    ¬ (parse_device { ({} : RawDevice) with typ := some "Wi-Fi AP" } 0).device_type
        = "wifi" := by
  decide

/-! ### C3: signature upsert -/

theorem c3_insert_fold (h : String) :
    ∀ (rest : List FingerprintSignature) (t : List SigRow) (row : SigRow),
      (∀ r ∈ t, r.fingerprint_hash ≠ h) → row.fingerprint_hash = h →
      (∀ s ∈ rest, s.fingerprint_hash = h) →
      rest.foldl insert_signature (t ++ [row]) =
        t ++ [{ row with times_seen := row.times_seen + rest.length }] := by
  intro rest
  induction rest with
  | nil =>
    intro t row _ _ _
    simp
  | cons s ss ih =>
    intro t row ht hrow hall
    have hs : s.fingerprint_hash = h := hall s (List.mem_cons_self s ss)
    have hmatch : sigMatch s row = true := by
      simp [sigMatch, hrow, hs]
    have hnomatch : ∀ r ∈ t, sigMatch s r = false := by
      intro r hr
      simp only [sigMatch, beq_eq_false_iff_ne, ne_eq, hs]
      exact ht r hr
    have hany : (t ++ [row]).any (sigMatch s) = true := by
      rw [List.any_append]
      simp [hmatch]
    rw [List.foldl_cons, insert_signature, hany, if_pos rfl,
      updateAt_append_of_none _ _ t [row] hnomatch]
    have hupd : updateAt (sigMatch s) (fun r => { r with times_seen := r.times_seen + 1 }) [row] =
        [{ row with times_seen := row.times_seen + 1 }] := by
      rw [updateAt, if_pos hmatch]
    rw [hupd, ih t { row with times_seen := row.times_seen + 1 } ht (by simp [hrow])
      (fun q hq => hall q (List.mem_cons_of_mem s hq))]
    have harith : row.times_seen + 1 + ss.length = row.times_seen + (s :: ss).length := by
      rw [List.length_cons]
      omega
    rw [harith]

/-- C3: starting from a signatures table with no row for hash `h`, folding
`insert_signature` over n ≥ 1 signatures all carrying hash `h` (the first
being `s₀`) leaves the other rows untouched and appends exactly one row for
`h`, whose `times_seen` is n and whose remaining fields hold the
first-write values of `s₀`. -/
theorem spec_c3_times_seen (t : List SigRow) (h : String)
    (s₀ : FingerprintSignature) (rest : List FingerprintSignature)
    (ht : ∀ r ∈ t, r.fingerprint_hash ≠ h)
    (hs₀ : s₀.fingerprint_hash = h)
    (hrest : ∀ s ∈ rest, s.fingerprint_hash = h) :
    (s₀ :: rest).foldl insert_signature t =
      t ++ [{ newSigRow s₀ with times_seen := rest.length + 1 }] := by
  rw [List.foldl_cons]
  have hnone : t.any (sigMatch s₀) = false := by
    rw [List.any_eq_false]
    intro r hr
    simp only [sigMatch, beq_eq_false_iff_ne, ne_eq, hs₀, Bool.not_eq_true]
    exact ht r hr
  have hfirst : insert_signature t s₀ = t ++ [newSigRow s₀] := by
    rw [insert_signature, hnone]
    simp
  rw [hfirst, c3_insert_fold h rest t (newSigRow s₀) ht (by simp [newSigRow, hs₀]) hrest]
  have : (newSigRow s₀).times_seen + rest.length = rest.length + 1 := by
    show 1 + rest.length = rest.length + 1
    omega
  rw [this]

def c3Sig : FingerprintSignature :=
  { fingerprint_hash := "abc123", device_type := "wifi",
    first_seen := "2025-12-25T12:00:00" }

/-- Witness for C3: three inserts of the same hash into an empty table
yield one row with `times_seen = 3`. -/
theorem spec_c3_witness :
    [c3Sig, c3Sig, c3Sig].foldl insert_signature ([] : List SigRow) =
      [] ++ [{ newSigRow c3Sig with times_seen := [c3Sig, c3Sig].length + 1 }] :=
  spec_c3_times_seen [] "abc123" c3Sig [c3Sig, c3Sig] (by decide) rfl (by decide)

/-! ### C4: device upsert merge rules -/

/-- C4: when `(session_id, device_key)` already has a row, the device
upsert updates that row by the merge rules — text fields (`essid`,
`encryption`, `fingerprint_hash`, `fingerprint_data` for wifi;
`device_name`, `device_class`, `fingerprint_hash`, `fingerprint_data` for
bt) coalesce, keeping the existing value unless the incoming one is
non-null; `signal_dbm`/`rssi`, `packets_total` (wifi), `last_seen` and all
GPS fields are replaced with the incoming values; and `first_seen`,
`device_key` and `bssid`/`mac_address` are never overwritten. -/
theorem spec_c4_upsert_merge (t : List WifiRow) (d : WiFiDevice)
    (bt : List BTRow) (b : BTDevice) (r : WifiRow) (rb : BTRow)
    (hw : t.any (wifiKeyMatch d) = true) (hb : bt.any (btKeyMatch b) = true) :
    _do_insert_wifi t d = updateAt (wifiKeyMatch d) (fun row => mergeWifi row d) t ∧
    _do_insert_bt bt b = updateAt (btKeyMatch b) (fun row => mergeBt row b) bt ∧
    (mergeWifi r d).essid = coalesce d.essid r.essid ∧
    (mergeWifi r d).encryption = coalesce d.encryption r.encryption ∧
    (mergeWifi r d).fingerprint_hash = coalesce d.fingerprint_hash r.fingerprint_hash ∧
    (mergeWifi r d).fingerprint_data = coalesce d.fingerprint_data r.fingerprint_data ∧
    (mergeWifi r d).signal_dbm = d.signal_dbm ∧
    (mergeWifi r d).packets_total = d.packets_total ∧
    (mergeWifi r d).last_seen = d.last_seen ∧
    (mergeWifi r d).gps_lat = d.gps_lat ∧
    (mergeWifi r d).gps_lon = d.gps_lon ∧
    (mergeWifi r d).gps_alt = d.gps_alt ∧
    (mergeWifi r d).gps_valid = d.gps_valid ∧
    (mergeWifi r d).first_seen = r.first_seen ∧
    (mergeWifi r d).device_key = r.device_key ∧
    (mergeWifi r d).bssid = r.bssid ∧
    (mergeWifi r d).session_id = r.session_id ∧
    (mergeBt rb b).device_name = coalesce b.device_name rb.device_name ∧
    (mergeBt rb b).device_class = coalesce b.device_class rb.device_class ∧
    (mergeBt rb b).fingerprint_hash = coalesce b.fingerprint_hash rb.fingerprint_hash ∧
    (mergeBt rb b).fingerprint_data = coalesce b.fingerprint_data rb.fingerprint_data ∧
    (mergeBt rb b).rssi = b.rssi ∧
    (mergeBt rb b).last_seen = b.last_seen ∧
    (mergeBt rb b).gps_lat = b.gps_lat ∧
    (mergeBt rb b).gps_lon = b.gps_lon ∧
    (mergeBt rb b).gps_alt = b.gps_alt ∧
    (mergeBt rb b).gps_valid = b.gps_valid ∧
    (mergeBt rb b).first_seen = rb.first_seen ∧
    (mergeBt rb b).device_key = rb.device_key ∧
    (mergeBt rb b).mac_address = rb.mac_address ∧
    (mergeBt rb b).session_id = rb.session_id := by
  refine ⟨?_, ?_, rfl, rfl, rfl, rfl, rfl, rfl, rfl, rfl, rfl, rfl, rfl, rfl, rfl,
    rfl, rfl, rfl, rfl, rfl, rfl, rfl, rfl, rfl, rfl, rfl, rfl, rfl, rfl, rfl, rfl⟩
  · rw [_do_insert_wifi, hw, if_pos rfl]
  · rw [_do_insert_bt, hb, if_pos rfl]

def c4RowDev : WiFiDevice :=
  { device_key := "K", bssid := "AA:BB:CC:DD:EE:00", signal_dbm := some (-60),
    packets_total := 10, first_seen := "t0", last_seen := "t1", session_id := "s1" }

def c4Dev : WiFiDevice :=
  { device_key := "K", bssid := "AA:BB:CC:DD:EE:00", essid := some "Guest",
    signal_dbm := some (-45), packets_total := 100, first_seen := "t2",
    last_seen := "t3", session_id := "s1" }

def c4BtDev : BTDevice :=
  { device_key := "B", mac_address := "11:22:33:44:55:00", first_seen := "t0",
    last_seen := "t1", session_id := "s1" }

/-- Witness for C4: the upsert rules applied to singleton tables holding a
row for the same `(session_id, device_key)`. -/
theorem spec_c4_witness :
    _do_insert_wifi [newWifiRow c4RowDev] c4Dev =
      updateAt (wifiKeyMatch c4Dev) (fun row => mergeWifi row c4Dev) [newWifiRow c4RowDev] ∧
    _do_insert_bt [newBtRow c4BtDev] c4BtDev =
      updateAt (btKeyMatch c4BtDev) (fun row => mergeBt row c4BtDev) [newBtRow c4BtDev] :=
  ⟨(spec_c4_upsert_merge [newWifiRow c4RowDev] c4Dev [newBtRow c4BtDev] c4BtDev
      (newWifiRow c4RowDev) (newBtRow c4BtDev) (by decide) (by decide)).1,
   (spec_c4_upsert_merge [newWifiRow c4RowDev] c4Dev [newBtRow c4BtDev] c4BtDev
      (newWifiRow c4RowDev) (newBtRow c4BtDev) (by decide) (by decide)).2.1⟩

/-! ### C5: WPS detection and its effect on the fingerprint -/

set_option maxRecDepth 100000

/-- C5 (amended): `wps_enabled` is true iff the vendor-IE list contains an
entry whose OUI is exactly the lowercase string `"00:50:f2"` with type
`"4"` — the comparison is case-sensitive, so the uppercase spelling
`"00:50:F2"` of the claim yields `wps_enabled = false`; the fingerprint
hash of the probe still differs from the same probe without the vendor IE,
because the OUI enters the sorted `vendor_ouis` feature. -/
theorem spec_c5_amended (sr er : Option (List Int)) (ht vht : Option String)
    (ies : Option (List VendorIE)) :
    ((extract_capabilities sr er ht vht ies).wps_enabled = true ↔
      ∃ ie ∈ ies.getD [], ie.oui = "00:50:f2" ∧ ie.typ = some "4") ∧
    (extract_capabilities (some [6, 12, 24, 48]) none (some "1234") none
        (some [⟨"00:50:f2", some "4"⟩])).wps_enabled = true ∧
    (extract_capabilities (some [6, 12, 24, 48]) none (some "1234") none
        (some [⟨"00:50:F2", some "4"⟩])).wps_enabled = false ∧
    (fingerprint_from_probe { mac := "AA:BB:CC:DD:EE:FF" } "HomeWiFi" [6, 12, 24, 48]
        (some "1234") none (some [⟨"00:50:F2", some "4"⟩])).2 ≠
      (fingerprint_from_probe { mac := "AA:BB:CC:DD:EE:FF" } "HomeWiFi" [6, 12, 24, 48]
        (some "1234") none none).2 := by
  refine ⟨?_, rfl, rfl, ?_⟩
  · show (ies.getD []).any (fun ie => ie.oui == "00:50:f2" && ie.typ == some "4") = true ↔ _
    simp only [List.any_eq_true, Bool.and_eq_true, beq_iff_eq]
  · decide

/-- C5 (counterexample): the claim asserts that a probe carrying the
vendor IE with OUI `"00:50:F2"` and type `"4"` yields `wps_enabled = true`;
`extract_capabilities` compares the OUI case-sensitively against the
lowercase `"00:50:f2"`, so this exact input yields `wps_enabled = false`. -/
theorem spec_c5_counterexample :
    (extract_capabilities (some [6, 12, 24, 48]) none (some "1234") none
        (some [⟨"00:50:F2", some "4"⟩])).wps_enabled ≠ true := by
  decide

/-! ### C7: canonical fingerprint determinism -/

/-- C7: the Wi-Fi fingerprint is a deterministic function of the
canonicalized feature vector — capability sets equal after sorting rates,
vendor OUIs and the optional probe-SSID set hash identically; the result
is the SHA-256 of the feature vector serialized as JSON with keys sorted
lexicographically and arrays ascending, and is 64 lowercase hex
characters.  (The converse — distinct sorted feature vectors always
hashing differently — is SHA-256 collision resistance and is assumed, not
proved.) -/
theorem spec_c7_fingerprint_canonical (c₁ c₂ : WiFiCapabilities)
    (p₁ p₂ : Option (List String))
    (heq : featureVec c₁ p₁ = featureVec c₂ p₂) :
    compute_fingerprint c₁ p₁ = compute_fingerprint c₂ p₂ ∧
    compute_fingerprint c₁ p₁ = sha256hex (utf8 (serializeFeatures (featureVec c₁ p₁))) ∧
    (compute_fingerprint c₁ p₁).length = 64 ∧
    ∀ ch ∈ (compute_fingerprint c₁ p₁).data, ch ∈ hexDigits := by
  refine ⟨?_, rfl, sha256hex_length _, sha256hex_mem _⟩
  unfold compute_fingerprint
  rw [heq]

def c7capA : WiFiCapabilities := { supported_rates := [12, 6] }

def c7capB : WiFiCapabilities := { supported_rates := [6], extended_rates := [12] }

/-- Witness for C7: two capability sets that differ only in how the rates
are split and ordered have equal sorted feature vectors and hash to the
same fingerprint. -/
theorem spec_c7_witness :
    compute_fingerprint c7capA none = compute_fingerprint c7capB none :=
  (spec_c7_fingerprint_canonical c7capA c7capB none none (by decide)).1

end Airdump
